import Mathlib

/-!
Shallow embedding of the Routstr client SDK wallet and gift-wrap logic
(src/utils/cashu.ts, src/utils/nip60.ts, and the client-level
unwrapCashuToken of the RoutstrClient class).

The TypeScript code is stateful (localStorage) and performs network I/O
(fetch against the remote wallet endpoint, and the cashu mint via
CashuWallet).  We embed it as pure functions over an explicit
`LocalState` record, with every external response (remote wallet HTTP
response, mint send/receive outcome) passed in as an explicit oracle
argument.  JavaScript string falsiness (null and the empty string) is
modelled explicitly where the source tests truthiness.
-/

set_option autoImplicit false

namespace Routstr

/-- A Cashu proof as stored in localStorage (`CashuProof` in cashu.ts). -/
structure CashuProof where
  amount : Nat
  secret : String
  C : String
  id : String
deriving DecidableEq, Repr

/-- The decrypted payload of a gift wrap: `{ token, note }` as serialized
by `JSON.stringify({ token, note })` in wrapCashuToken.  -/
structure GiftPayload where
  token : String
  note : Option String
deriving DecidableEq, Repr

/--
The content field of an event.  Real events carry an opaque string; we
model nip04 ECDH encryption symbolically: `cipher senderPub recipPub p`
is a ciphertext produced from plaintext `p` under the ECDH pair
(sender secret key, recipient public key), and `garbage` is any string
that no decryption or JSON parse accepts.
-/
inductive Content where
  | cipher (senderPub recipPub : String) (payload : GiftPayload)
  | garbage (raw : String)
deriving DecidableEq, Repr

/-- A Nostr event as used by nip60.ts. -/
structure NostrEvent where
  kind : Nat
  pubkey : String
  created_at : Nat
  tags : List (List String)
  content : Content
  id : String
  sig : String
deriving DecidableEq, Repr

/--
The localStorage state relevant to the embedded functions.  `none`
models an absent key; `some v` a present JSON value.
`proofs` is the `routstr_cashu_proofs` key, `currentToken` the
`routstr_current_token` key, `wrappedTokens` the
`routstr_wrapped_cashu_tokens` key.
-/
structure LocalState where
  proofs : Option (List CashuProof)
  currentToken : Option String
  wrappedTokens : Option (List NostrEvent) := none
deriving DecidableEq, Repr

/-- JavaScript truthiness for a nullable string: `null` and `""` are falsy. -/
def strFalsy : Option String → Bool
  | none => true
  | some s => s = ""

/-- `proofs.reduce((total, proof) => total + proof.amount, 0)`. -/
def sumProofs (ps : List CashuProof) : Nat :=
  ps.foldl (fun total proof => total + proof.amount) 0

/-- `getBalanceFromStoredProofs` of cashu.ts: 0 when the key is absent,
otherwise the sum of the stored proof amounts. -/
def getBalanceFromStoredProofs (s : LocalState) : Nat :=
  match s.proofs with
  | none => 0
  | some proofs => sumProofs proofs

/-- `MSATS_PER_SAT` of cashu.ts. -/
def MSATS_PER_SAT : Nat := 1000

/-- `invalidateApiToken` of cashu.ts: removes the current-token key. -/
def invalidateApiToken (s : LocalState) : LocalState :=
  { s with currentToken := none }

/-- Substring membership over lists of characters (model of JS
`String.prototype.includes`). -/
def charsPrefixOf : List Char → List Char → Bool
  | [], _ => true
  | _ :: _, [] => false
  | a :: as, b :: bs => a = b && charsPrefixOf as bs

/-- `hay.includes(needle)` for JS strings. -/
def strContains (hay needle : String) : Bool :=
  (List.range (hay.toList.length + 1)).any fun i =>
    charsPrefixOf needle.toList (hay.toList.drop i)

/-- Outcome of `wallet.send(amount, proofs)` on the mint (external),
including errors thrown while loading the mint. -/
inductive SendOutcome where
  | ok (send keep : List CashuProof)
  | err (msg : String)
deriving DecidableEq, Repr

/-- Outcome of `wallet.receive(tokenString)` on the mint (external).
`nonArray` models a non-array result (mapped to `[]` by the source). -/
inductive ReceiveResult where
  | ok (proofs : List CashuProof)
  | nonArray
  | err (msg : String)
deriving DecidableEq, Repr

/-- True when the mint receive call threw. -/
def ReceiveResult.isErr : ReceiveResult → Bool
  | .err _ => true
  | _ => false

/-- Deterministic model of `btoa(JSON.stringify({token:[{mint,proofs}]}))`
with the `cashuA` tag: the source only treats the result as an opaque
string. -/
def serializeProof (p : CashuProof) : String :=
  p.secret ++ ":" ++ toString p.amount ++ ":" ++ p.C ++ ":" ++ p.id

/-- The bearer-token string built by `generateApiToken`. -/
def encodeToken (mintUrl : String) (ps : List CashuProof) : String :=
  "cashuA" ++ mintUrl ++ "|" ++ String.intercalate "," (ps.map serializeProof)

/--
`generateApiToken(mintUrl, amount)` of cashu.ts, with the mint split
outcome as oracle.  Returns the token (or `none`) together with the
updated state.  Fractional rounding (`Math.ceil`) is the identity on the
`Nat` amounts modelled here.  On a thrown mint error the catch block
returns `none` whether or not the message mentions funds.
-/
def generateApiToken (mintUrl : String) (amount : Nat) (mint : SendOutcome)
    (s : LocalState) : Option String × LocalState :=
  match s.proofs with
  | none => (none, s)
  | some _ =>
    match mint with
    | .err msg =>
      -- catch: message containing "funds" and any other error both yield null
      if strContains msg "funds" then (none, s) else (none, s)
    | .ok send keep =>
      if send = [] then (none, s)
      else (some (encodeToken mintUrl send), { s with proofs := some keep })

/-- Result of `getOrCreateApiToken`: `string | null | { hasTokens: false }`. -/
inductive TokenResult where
  | tokenStr (t : String)
  | noTokens
  | nullResult
deriving DecidableEq, Repr

/-- `getOrCreateApiToken(mintUrl, amount)` of cashu.ts. -/
def getOrCreateApiToken (mintUrl : String) (amount : Nat) (mint : SendOutcome)
    (s : LocalState) : TokenResult × LocalState :=
  if strFalsy s.currentToken = false then
    (TokenResult.tokenStr (s.currentToken.getD ""), s)
  else
    match s.proofs with
    | none => (TokenResult.noTokens, s)
    | some _ =>
      match generateApiToken mintUrl amount mint s with
      | (some newToken, s1) =>
        (TokenResult.tokenStr newToken, { s1 with currentToken := some newToken })
      | (none, s1) => (TokenResult.nullResult, s1)

/-- Outcome of `fetch(baseUrl + "v1/wallet/refund")` (external):
a 2xx JSON body `{ token?: string }`, a non-ok status (the source then
throws and catches), or a thrown network error. -/
inductive RefundHttp where
  | ok (token : Option String)
  | status (code : Nat)
  | netError (msg : String)
deriving DecidableEq, Repr

/-- `{ success, message }` result of the wallet result-style functions. -/
structure WalletResult where
  success : Bool
  message : Option String
deriving DecidableEq, Repr

/--
`refundRemainingBalance(mintUrl, baseUrl, token?)` of cashu.ts, with the
refund endpoint response and the mint receive outcome as oracles.
`tokenArg` is the optional `token` parameter; `token || getItem(...)`
is JS or, so an empty-string argument falls back to the stored token.
-/
def refundRemainingBalance (baseUrl : String) (tokenArg : Option String)
    (http : RefundHttp) (recv : ReceiveResult) (s : LocalState) :
    WalletResult × LocalState :=
  let storedToken : Option String :=
    if strFalsy tokenArg then s.currentToken else tokenArg
  if strFalsy storedToken then
    (⟨true, some "No token to refund"⟩, s)
  else if baseUrl = "" then
    (⟨false, some "No base URL configured"⟩, s)
  else
    match http with
    | .netError msg => (⟨false, some msg⟩, s)
    | .status code =>
      (⟨false, some ("Refund request failed with status " ++ toString code)⟩, s)
    | .ok dataToken =>
      if strFalsy dataToken then
        (⟨true, some "Refund completed successfully"⟩, invalidateApiToken s)
      else
        match recv with
        | .err msg => (⟨false, some msg⟩, s)
        | .nonArray =>
          (⟨true, some "Refund completed successfully"⟩, invalidateApiToken s)
        | .ok proofs =>
          if proofs = [] then
            (⟨true, some "Refund completed successfully"⟩, invalidateApiToken s)
          else
            let existingProofs := (s.proofs).getD []
            (⟨true, some "Refund completed successfully"⟩,
             invalidateApiToken { s with proofs := some (existingProofs ++ proofs) })

/-- Outcome of `fetch(baseUrl + "v1/wallet/")` (external): a 2xx JSON
body `{ balance }` in millisats, a non-ok status, or a thrown error. -/
inductive WalletBalanceResp where
  | ok (balance : Nat)
  | status (code : Nat)
  | netError (msg : String)
deriving DecidableEq, Repr

/-- `{ apiBalance, proofsBalance }` returned by fetchBalances (msats). -/
structure Balances where
  apiBalance : Nat
  proofsBalance : Nat
deriving DecidableEq, Repr

/--
`fetchBalances(mintUrl, baseUrl)` of cashu.ts with the remote wallet
response and (for the nested refund call) the refund oracles.  The
function never throws: all remote failures are caught.
-/
def fetchBalances (baseUrl : String) (resp : WalletBalanceResp)
    (rhttp : RefundHttp) (recv : ReceiveResult) (s : LocalState) :
    Balances × LocalState :=
  let step : Nat × LocalState :=
    if strFalsy s.currentToken then (0, s)
    else
      match resp with
      | .status code => if code = 402 then (0, invalidateApiToken s) else (0, s)
      | .netError _ => (0, s)
      | .ok balance =>
        if balance > 0 then
          -- refund remaining balance, then report apiBalance = 0
          (0, (refundRemainingBalance baseUrl none rhttp recv s).2)
        else (balance, s)
  let s1 := step.2
  (⟨step.1, getBalanceFromStoredProofs s1 * MSATS_PER_SAT⟩, s1)

/-- `{ success, amount?, message? }` result of importToken. -/
structure ImportResult where
  success : Bool
  amount : Option Nat
  message : Option String
deriving DecidableEq, Repr

/-- `importToken(tokenString, mintUrl)` of cashu.ts, with the mint
receive outcome as oracle. -/
def importToken (recv : ReceiveResult) (s : LocalState) :
    ImportResult × LocalState :=
  match recv with
  | .err msg =>
    if strContains msg "already spent" then
      (⟨false, none, some "This token has already been spent"⟩, s)
    else
      (⟨false, none, some msg⟩, s)
  | .nonArray => (⟨false, none, some "Invalid token format"⟩, s)
  | .ok proofs =>
    if proofs = [] then (⟨false, none, some "Invalid token format"⟩, s)
    else
      let existingProofs := (s.proofs).getD []
      let importedAmount := sumProofs proofs
      (⟨true, some importedAmount,
        some ("Successfully imported " ++ toString importedAmount ++ " sats")⟩,
       { s with proofs := some (existingProofs ++ proofs) })

/-- `getPublicKeyFromPrivateKey` (nostr.ts, external secp256k1 key
derivation) modelled as a deterministic symbolic map from secret keys
(modelled as naturals) to hex public-key strings. -/
def pubkeyOf (sk : Nat) : String :=
  "npub" ++ toString sk

/-- `nip04.encrypt(sk, peerPub, plaintext)` (external): the symbolic
ciphertext records the ECDH pair it was produced under. -/
def nip04Encrypt (sk : Nat) (peerPub : String) (p : GiftPayload) : Content :=
  Content.cipher (pubkeyOf sk) peerPub p

/-- `nip04.decrypt(sk, peerPub, ciphertext)` (external): succeeds exactly
when the ECDH shared secret matches, i.e. the ciphertext was produced by
the peer for this key; any other input throws (modelled as `none`). -/
def nip04Decrypt (sk : Nat) (peerPub : String) : Content → Option GiftPayload
  | Content.cipher senderPub recipPub p =>
    if senderPub = peerPub ∧ recipPub = pubkeyOf sk then some p else none
  | Content.garbage _ => none

/-- Serialization of a content value, for the event-hash model. -/
def contentRepr : Content → String
  | Content.cipher sp rp p => "c:" ++ sp ++ ":" ++ rp ++ ":" ++ p.token ++ ":" ++ p.note.getD ""
  | Content.garbage raw => "g:" ++ raw

/-- `getEventHash` of nostr-tools (external): a deterministic content
hash over the canonical event fields. -/
def getEventHash (e : NostrEvent) : String :=
  "h:" ++ toString e.kind ++ ":" ++ e.pubkey ++ ":" ++ toString e.created_at ++ ":"
    ++ String.intercalate ";" (e.tags.map (String.intercalate ",")) ++ ":"
    ++ contentRepr e.content

/-- `finalizeEvent` of nostr-tools (external): signs the event id with
the secret key. -/
def finalizeEvent (e : NostrEvent) (sk : Nat) : NostrEvent :=
  { e with sig := "sig" ++ toString sk ++ ":" ++ e.id }

/-- `wrapCashuToken(token, recipientPubkey, senderPrivateKey, note?)` of
nip60.ts.  `createdAt` stands for `Math.floor(Date.now() / 1000)`. -/
def wrapCashuToken (token : String) (recipientPubkey : String)
    (senderPrivateKey : Nat) (createdAt : Nat) (note : Option String) :
    NostrEvent :=
  let senderPubkey := pubkeyOf senderPrivateKey
  let encryptedContent := nip04Encrypt senderPrivateKey recipientPubkey ⟨token, note⟩
  let e : NostrEvent :=
    { kind := 1059
      pubkey := senderPubkey
      created_at := createdAt
      tags := [["p", recipientPubkey], ["gift", "cashu"]]
      content := encryptedContent
      id := ""
      sig := "" }
  finalizeEvent { e with id := getEventHash e } senderPrivateKey

/-- `tag[0] === k && tag[1] === v` for a JS tag array (out-of-range
indexing yields `undefined`, which never equals a string). -/
def tagMatches (k v : String) : List String → Bool
  | a :: b :: _ => a = k && b = v
  | _ => false

/-- `tag[0] === k` for a JS tag array. -/
def tagKeyIs (k : String) : List String → Bool
  | a :: _ => a = k
  | [] => false

/-- The `{ token, recipientPubkey, note? }` result of unwrapCashuToken. -/
structure GiftWrap where
  token : String
  recipientPubkey : String
  note : Option String
deriving DecidableEq, Repr

/-- `unwrapCashuToken(event, recipientPrivateKey)` of nip60.ts.  Every
thrown error (decryption, parse) is caught and mapped to `null`. -/
def unwrapCashuToken (event : NostrEvent) (recipientPrivateKey : Nat) :
    Option GiftWrap :=
  let recipientPubkey := pubkeyOf recipientPrivateKey
  let isForUs := event.tags.any (tagMatches "p" recipientPubkey)
  if isForUs = false then none
  else
    let isCashuGift := event.tags.any (tagMatches "gift" "cashu")
    if isCashuGift = false then none
    else
      match nip04Decrypt recipientPrivateKey event.pubkey event.content with
      | none => none
      | some giftContent =>
        some ⟨giftContent.token, recipientPubkey, giftContent.note⟩

/-- `isValidCashuGiftWrap(event)` of nip60.ts: structural check only. -/
def isValidCashuGiftWrap (event : NostrEvent) : Bool :=
  if event.kind ≠ 1059 then false
  else
    let hasRecipient := event.tags.any (tagKeyIs "p")
    let isCashuGift := event.tags.any (tagMatches "gift" "cashu")
    hasRecipient && isCashuGift

/-- `getStoredWrappedTokens()` of nip60.ts: `[]` when the key is absent. -/
def getStoredWrappedTokens (s : LocalState) : List NostrEvent :=
  s.wrappedTokens.getD []

/-- `storeWrappedToken(wrappedToken)` of nip60.ts: appends to the stored
list (the absent key reads as the empty list). -/
def storeWrappedToken (wrappedToken : NostrEvent) (s : LocalState) : LocalState :=
  { s with wrappedTokens := some (getStoredWrappedTokens s ++ [wrappedToken]) }

/-- `removeWrappedToken(tokenId)` of nip60.ts: filters out every stored
event whose id equals `tokenId` and writes the result back. -/
def removeWrappedToken (tokenId : String) (s : LocalState) : LocalState :=
  let updatedTokens := (getStoredWrappedTokens s).filter fun token => token.id ≠ tokenId
  { s with wrappedTokens := some updatedTokens }

/-- Result of the client-level `RoutstrClient.unwrapCashuToken`. -/
inductive UnwrapResult where
  | failure (message : String)
  | ok (gift : GiftWrap)
deriving DecidableEq, Repr

/-- `RoutstrClient.unwrapCashuToken(event)` (client class): validates the
event structurally, unwraps it with the client secret key, and on
success removes the event from the stored sent-gift list. -/
def clientUnwrapCashuToken (event : NostrEvent) (privateKey : Nat)
    (s : LocalState) : UnwrapResult × LocalState :=
  if isValidCashuGiftWrap event = false then
    (UnwrapResult.failure "Invalid gift wrap event", s)
  else
    match unwrapCashuToken event privateKey with
    | none =>
      (UnwrapResult.failure
        "Failed to unwrap token or token not intended for this recipient", s)
    | some gift =>
      (UnwrapResult.ok gift, removeWrappedToken event.id s)

/-! ## Helper lemmas -/

theorem foldl_amount_acc (ps : List CashuProof) (a : Nat) :
    ps.foldl (fun total proof => total + proof.amount) a = a + sumProofs ps := by
  induction ps generalizing a with
  | nil => simp [sumProofs]
  | cons p ps ih =>
    simp only [List.foldl_cons, sumProofs] at *
    rw [ih (a + p.amount), ih (0 + p.amount)]
    omega

theorem sumProofs_append (P Q : List CashuProof) :
    sumProofs (P ++ Q) = sumProofs P + sumProofs Q := by
  simp only [sumProofs, List.foldl_append]
  rw [foldl_amount_acc]
  rfl

@[simp] theorem strFalsy_none : strFalsy none = true := rfl

/-! ## Claims -/

/-- Concrete state for the C1 scenario: a cached ActiveToken and an
empty stored proof list. -/
def C1state : LocalState := { proofs := some [], currentToken := some "tok" }

/-- C1 (counterexample): with a cached ActiveToken whose remote query
observes a nonzero balance of 5 msat, `fetchBalances` triggers the
refund but returns `apiBalance = 0`, not the observed amount 5, so the
claim that the returned apiBalance equals the pre-refund observed amount
is false. -/
theorem C1_counterexample :
    (fetchBalances "http://b/" (WalletBalanceResp.ok 5) (RefundHttp.ok none)
        (ReceiveResult.ok []) C1state).1.apiBalance = 0 ∧ (0 : Nat) ≠ 5 := by
  constructor
  · rfl
  · decide

/-- C1 (amended): when `fetchBalances` finds a cached ActiveToken whose
remote wallet query returns a positive balance, it triggers
`refundRemainingBalance` to pull the balance back into the ProofStore,
and reports the remote contribution `apiBalance` as 0 (the post-refund
amount), with the proofs balance computed on the post-refund state. -/
theorem C1_refund_then_zero (baseUrl : String) (rhttp : RefundHttp)
    (recv : ReceiveResult) (s : LocalState) (t : String) (b : Nat)
    (htok : s.currentToken = some t) (hne : t ≠ "") (hb : 0 < b) :
    fetchBalances baseUrl (WalletBalanceResp.ok b) rhttp recv s =
      (⟨0, getBalanceFromStoredProofs
            (refundRemainingBalance baseUrl none rhttp recv s).2 * MSATS_PER_SAT⟩,
       (refundRemainingBalance baseUrl none rhttp recv s).2) := by
  unfold fetchBalances
  simp [htok, strFalsy, hne, hb]

/-- C1 (witness): the amended theorem applied at the concrete C1
scenario. -/
theorem C1_refund_then_zero_witness :
    fetchBalances "http://b/" (WalletBalanceResp.ok 5) (RefundHttp.ok none)
        (ReceiveResult.ok []) C1state =
      (⟨0, 0⟩, { proofs := some [], currentToken := none, wrappedTokens := none }) := by
  have h := C1_refund_then_zero "http://b/" (RefundHttp.ok none)
    (ReceiveResult.ok []) C1state "tok" 5 rfl (by decide) (by decide)
  exact h.trans (by decide)

/-- Concrete state for the C2 scenario: one stored proof, no cached
token. -/
def C2state : LocalState :=
  { proofs := some [⟨7, "sec", "cc", "idk"⟩], currentToken := none }

/-- C2 (counterexample): a mint failure whose message does not mention
funds (so it is not an insufficient-funds report) still makes
`generateApiToken` return null (`none`) — it does not surface as a
token-generation failure distinct from the null result. -/
theorem C2_counterexample :
    strContains "boom" "funds" = false ∧
    (generateApiToken "mint" 50 (SendOutcome.err "boom") C2state).1 = none := by
  decide

/-- C2 (amended): for every amount and proof set, if the mint split
throws — whether it reports insufficient funds or any other failure —
`generateApiToken` returns null and leaves the stored proof set (and the
whole state) unchanged; the catch-all logs other failures but still
returns null. -/
theorem C2_mint_failure_returns_null (mintUrl : String) (amount : Nat)
    (msg : String) (s : LocalState) :
    generateApiToken mintUrl amount (SendOutcome.err msg) s = (none, s) := by
  unfold generateApiToken
  cases hp : s.proofs <;> simp

/-- C3 (confirmed): with a cached ActiveToken, two consecutive
`getOrCreateApiToken` calls with any amounts and any mint behavior both
return the identical cached token string and leave the state (hence the
ProofStore balance) unchanged; no proof split is performed. -/
theorem C3_cached_token_idempotent (mintUrl : String) (a1 a2 : Nat)
    (o1 o2 : SendOutcome) (s : LocalState) (t : String)
    (htok : s.currentToken = some t) (hne : t ≠ "") :
    getOrCreateApiToken mintUrl a1 o1 s = (TokenResult.tokenStr t, s) ∧
    getOrCreateApiToken mintUrl a2 o2 (getOrCreateApiToken mintUrl a1 o1 s).2 =
      (TokenResult.tokenStr t, s) := by
  unfold getOrCreateApiToken
  simp [htok, strFalsy, hne]

/-- C3 (witness): the theorem applied at a concrete cached-token
state. -/
theorem C3_cached_token_idempotent_witness :
    getOrCreateApiToken "mint" 50 (SendOutcome.err "x") C1state =
      (TokenResult.tokenStr "tok", C1state) ∧
    getOrCreateApiToken "mint" 99 (SendOutcome.ok [] [])
        (getOrCreateApiToken "mint" 50 (SendOutcome.err "x") C1state).2 =
      (TokenResult.tokenStr "tok", C1state) :=
  C3_cached_token_idempotent "mint" 50 99 (SendOutcome.err "x")
    (SendOutcome.ok [] []) C1state "tok" rfl (by decide)

/-- Concrete state for the C4 counterexample: the proofs key holds an
empty list (an empty ProofStore), no cached token. -/
def C4state : LocalState := { proofs := some [], currentToken := none }

/-- C4 (counterexample): with no cached ActiveToken and an empty
ProofStore stored as an empty proof list, `getOrCreateApiToken` does not
return the no-funds value: it proceeds to mint generation and (here,
with the mint reporting insufficient funds) returns null. -/
theorem C4_counterexample :
    getBalanceFromStoredProofs C4state = 0 ∧
    (getOrCreateApiToken "mint" 50
        (SendOutcome.err "Not enough funds available") C4state).1 =
      TokenResult.nullResult := by
  decide

/-- C4 (amended): with no cached ActiveToken and no stored proofs entry
at all (the proofs key absent), `getOrCreateApiToken` returns the
distinguished no-funds value `{ hasTokens: false }` — not an error and
not null — leaving the state unchanged; a stored empty proof list
instead falls through to mint generation. -/
theorem C4_absent_proofs_noTokens (mintUrl : String) (amount : Nat)
    (o : SendOutcome) (s : LocalState)
    (htok : strFalsy s.currentToken = true) (hp : s.proofs = none) :
    getOrCreateApiToken mintUrl amount o s = (TokenResult.noTokens, s) := by
  unfold getOrCreateApiToken
  simp [htok, hp]

/-- C4 (witness): the amended theorem applied at the concrete state with
both keys absent. -/
theorem C4_absent_proofs_noTokens_witness :
    getOrCreateApiToken "mint" 50 (SendOutcome.err "x")
        { proofs := none, currentToken := none } =
      (TokenResult.noTokens, { proofs := none, currentToken := none }) :=
  C4_absent_proofs_noTokens "mint" 50 (SendOutcome.err "x")
    { proofs := none, currentToken := none } (by decide) rfl

/-- C5 (confirmed): with a cached ActiveToken, a 402 (payment required)
status from the remote wallet query makes `fetchBalances` invalidate the
cached token and report a zero remote contribution; any other failing
status and any thrown network error are swallowed, leave the state
unchanged, and also report a zero remote contribution.  `fetchBalances`
is a total function, so no path throws. -/
theorem C5_fetchBalances_failures (baseUrl : String) (rhttp : RefundHttp)
    (recv : ReceiveResult) (s : LocalState) (t : String)
    (htok : s.currentToken = some t) (hne : t ≠ "") :
    (fetchBalances baseUrl (WalletBalanceResp.status 402) rhttp recv s =
      (⟨0, getBalanceFromStoredProofs s * MSATS_PER_SAT⟩, invalidateApiToken s)) ∧
    (∀ code : Nat, code ≠ 402 →
      fetchBalances baseUrl (WalletBalanceResp.status code) rhttp recv s =
        (⟨0, getBalanceFromStoredProofs s * MSATS_PER_SAT⟩, s)) ∧
    (∀ msg : String,
      fetchBalances baseUrl (WalletBalanceResp.netError msg) rhttp recv s =
        (⟨0, getBalanceFromStoredProofs s * MSATS_PER_SAT⟩, s)) := by
  refine ⟨?_, ?_, ?_⟩
  · unfold fetchBalances
    simp [htok, strFalsy, hne, invalidateApiToken, getBalanceFromStoredProofs]
  · intro code hcode
    unfold fetchBalances
    simp [htok, strFalsy, hne, hcode]
  · intro msg
    unfold fetchBalances
    simp [htok, strFalsy, hne]

/-- C5 (witness): the theorem applied at the concrete C1 state, with an
extra stored proof so the proofs balance is visible. -/
theorem C5_fetchBalances_failures_witness :
    fetchBalances "http://b/" (WalletBalanceResp.status 402) (RefundHttp.ok none)
        (ReceiveResult.ok []) C1state =
      (⟨0, 0⟩, { proofs := some [], currentToken := none, wrappedTokens := none }) ∧
    fetchBalances "http://b/" (WalletBalanceResp.status 500) (RefundHttp.ok none)
        (ReceiveResult.ok []) C1state = (⟨0, 0⟩, C1state) := by
  have h := C5_fetchBalances_failures "http://b/" (RefundHttp.ok none)
    (ReceiveResult.ok []) C1state "tok" rfl (by decide)
  exact ⟨h.1.trans (by decide), (h.2.1 500 (by decide)).trans (by decide)⟩

/-- C6 (confirmed): `refundRemainingBalance` with no explicit token
argument is a no-op success when no ActiveToken is cached; with a cached
ActiveToken every network failure (thrown fetch error or non-ok refund
status) yields `success = false` with the state — in particular the
cached token — unchanged, and every non-failing path (refund endpoint
returns 2xx, and the mint receive does not throw when a remainder token
was returned) yields `success = true` with the ActiveToken cleared,
whether or not a remainder token was returned. -/
theorem C6_refund_contract (baseUrl : String) (recv : ReceiveResult)
    (s : LocalState) :
    (strFalsy s.currentToken = true →
      ∀ http : RefundHttp, refundRemainingBalance baseUrl none http recv s =
        (⟨true, some "No token to refund"⟩, s)) ∧
    (strFalsy s.currentToken = false →
      (∀ msg : String,
        (refundRemainingBalance baseUrl none (RefundHttp.netError msg) recv s).1.success
            = false ∧
        (refundRemainingBalance baseUrl none (RefundHttp.netError msg) recv s).2 = s) ∧
      (∀ code : Nat,
        (refundRemainingBalance baseUrl none (RefundHttp.status code) recv s).1.success
            = false ∧
        (refundRemainingBalance baseUrl none (RefundHttp.status code) recv s).2 = s) ∧
      (baseUrl ≠ "" → ∀ dataToken : Option String,
        strFalsy dataToken = true ∨ recv.isErr = false →
        (refundRemainingBalance baseUrl none (RefundHttp.ok dataToken) recv s).1.success
            = true ∧
        (refundRemainingBalance baseUrl none (RefundHttp.ok dataToken) recv s).2.currentToken
            = none)) := by
  constructor
  · intro hfal http
    unfold refundRemainingBalance
    simp [hfal]
  · intro htru
    refine ⟨?_, ?_, ?_⟩
    · intro msg
      unfold refundRemainingBalance
      by_cases hb : baseUrl = "" <;> simp [htru, hb]
    · intro code
      unfold refundRemainingBalance
      by_cases hb : baseUrl = "" <;> simp [htru, hb]
    · intro hb dataToken hcase
      unfold refundRemainingBalance
      rcases hcase with hfal | hrec
      · simp [htru, hb, hfal, invalidateApiToken]
      · by_cases hfal : strFalsy dataToken = true
        · simp [htru, hb, hfal, invalidateApiToken]
        · cases recv with
          | err m => simp [ReceiveResult.isErr] at hrec
          | nonArray => simp [htru, hb, hfal, invalidateApiToken]
          | ok proofs =>
            by_cases hp : proofs = [] <;>
              simp [htru, hb, hfal, hp, invalidateApiToken]

/-- C6 (witness): the theorem applied at concrete states: no cached
token (no-op success), a network failure leaving the token intact, and a
successful refund with a remainder token clearing the ActiveToken. -/
theorem C6_refund_contract_witness :
    refundRemainingBalance "http://b/" none (RefundHttp.netError "down")
        (ReceiveResult.ok []) { proofs := none, currentToken := none } =
      (⟨true, some "No token to refund"⟩, { proofs := none, currentToken := none }) ∧
    (refundRemainingBalance "http://b/" none (RefundHttp.netError "down")
        (ReceiveResult.ok []) C1state).1.success = false ∧
    (refundRemainingBalance "http://b/" none (RefundHttp.netError "down")
        (ReceiveResult.ok []) C1state).2 = C1state ∧
    (refundRemainingBalance "http://b/" none
        (RefundHttp.ok (some "tokB")) (ReceiveResult.ok [⟨3, "s2", "c2", "i2"⟩])
        C1state).1.success = true ∧
    (refundRemainingBalance "http://b/" none
        (RefundHttp.ok (some "tokB")) (ReceiveResult.ok [⟨3, "s2", "c2", "i2"⟩])
        C1state).2.currentToken = none := by
  have h0 := C6_refund_contract "http://b/" (ReceiveResult.ok [])
    { proofs := none, currentToken := none }
  have h1 := C6_refund_contract "http://b/" (ReceiveResult.ok []) C1state
  have h2 := C6_refund_contract "http://b/"
    (ReceiveResult.ok [⟨3, "s2", "c2", "i2"⟩]) C1state
  refine ⟨h0.1 (by decide) (RefundHttp.netError "down"), ?_, ?_, ?_, ?_⟩
  · exact ((h1.2 (by decide)).1 "down").1
  · exact ((h1.2 (by decide)).1 "down").2
  · exact ((h2.2 (by decide)).2.2 (by decide) (some "tokB") (Or.inr (by decide))).1
  · exact ((h2.2 (by decide)).2.2 (by decide) (some "tokB") (Or.inr (by decide))).2

/-- C7 (confirmed): wrapping a token for a recipient public key and
unwrapping the resulting event with the matching recipient secret key
returns the original token and note (and the recipient public key);
unwrapping with a secret key whose public key does not match the p tag
of the event returns null. -/
theorem C7_wrap_unwrap_roundtrip (token : String) (recipientPubkey : String)
    (senderSk recipSk createdAt : Nat) (note : Option String) :
    (pubkeyOf recipSk = recipientPubkey →
      unwrapCashuToken
          (wrapCashuToken token recipientPubkey senderSk createdAt note) recipSk =
        some ⟨token, recipientPubkey, note⟩) ∧
    (pubkeyOf recipSk ≠ recipientPubkey →
      unwrapCashuToken
          (wrapCashuToken token recipientPubkey senderSk createdAt note) recipSk =
        none) := by
  constructor
  · intro h
    subst h
    simp [unwrapCashuToken, wrapCashuToken, finalizeEvent, nip04Encrypt,
      nip04Decrypt, tagMatches]
  · intro h
    simp [unwrapCashuToken, wrapCashuToken, finalizeEvent, nip04Encrypt,
      nip04Decrypt, tagMatches, h, Ne.symm h]

/-- C7 (witness): the theorem applied at concrete keys 5 (sender) and 3
(recipient): the matching key recovers the token and note, key 4 does
not. -/
theorem C7_wrap_unwrap_roundtrip_witness :
    unwrapCashuToken (wrapCashuToken "tokX" (pubkeyOf 3) 5 100 (some "hi")) 3 =
      some ⟨"tokX", pubkeyOf 3, some "hi"⟩ ∧
    unwrapCashuToken (wrapCashuToken "tokX" (pubkeyOf 3) 5 100 (some "hi")) 4 =
      none := by
  have h := C7_wrap_unwrap_roundtrip "tokX" (pubkeyOf 3) 5 3 100 (some "hi")
  have h4 := C7_wrap_unwrap_roundtrip "tokX" (pubkeyOf 3) 5 4 100 (some "hi")
  exact ⟨h.1 rfl, h4.2 (by decide)⟩

theorem tagKeyIs_iff (k : String) (tag : List String) :
    tagKeyIs k tag = true ↔ ∃ rest, tag = k :: rest := by
  cases tag with
  | nil => simp [tagKeyIs]
  | cons a as =>
    simp only [tagKeyIs, decide_eq_true_eq]
    constructor
    · intro h
      exact ⟨as, by rw [h]⟩
    · rintro ⟨rest, hrest⟩
      exact (List.cons.injEq a as k rest ▸ hrest).1

theorem tagMatches_iff (k v : String) (tag : List String) :
    tagMatches k v tag = true ↔ ∃ rest, tag = k :: v :: rest := by
  cases tag with
  | nil => simp [tagMatches]
  | cons a as =>
    cases as with
    | nil => simp [tagMatches]
    | cons b bs =>
      simp only [tagMatches, Bool.and_eq_true, decide_eq_true_eq]
      constructor
      · rintro ⟨h1, h2⟩
        exact ⟨bs, by rw [h1, h2]⟩
      · rintro ⟨rest, hrest⟩
        injection hrest with h1 h2
        injection h2 with h2a h2b
        exact ⟨h1, h2a⟩

/-- Concrete event for the C8 counterexample: kind 1059, a p tag, and a
gift tag carrying a third element. -/
def C8event : NostrEvent :=
  { kind := 1059, pubkey := "a", created_at := 0,
    tags := [["p", "x"], ["gift", "cashu", "extra"]],
    content := Content.garbage "", id := "", sig := "" }

/-- C8 (counterexample): `isValidCashuGiftWrap` accepts an event none of
whose tags equals the two-element list gift,cashu — the gift tag only
needs to start with those two elements — so the if-and-only-if of the
claim fails as stated. -/
theorem C8_counterexample :
    isValidCashuGiftWrap C8event = true ∧
    ∀ tag ∈ C8event.tags, tag ≠ ["gift", "cashu"] := by
  decide

/-- C8 (amended): `isValidCashuGiftWrap` returns true exactly when the
event kind is 1059, some tag has first element p, and some tag has first
element gift and second element cashu (further elements are ignored);
the result depends only on the kind and tags, never on the content
(ciphertext) or signature. -/
theorem C8_isValid_characterization (e : NostrEvent) :
    (isValidCashuGiftWrap e = true ↔
      e.kind = 1059 ∧ (∃ tag ∈ e.tags, ∃ rest, tag = "p" :: rest) ∧
        (∃ tag ∈ e.tags, ∃ rest, tag = "gift" :: "cashu" :: rest)) ∧
    (∀ (c1 c2 : Content) (sig1 sig2 : String),
      isValidCashuGiftWrap { e with content := c1, sig := sig1 } =
        isValidCashuGiftWrap { e with content := c2, sig := sig2 }) := by
  constructor
  · unfold isValidCashuGiftWrap
    by_cases hk : e.kind = 1059
    · simp [hk, List.any_eq_true, tagKeyIs_iff, tagMatches_iff]
    · simp [hk]
  · intro c1 c2 sig1 sig2
    rfl

/-- C9 (confirmed): a successful `importToken` whose mint receive yields
proofs Q (sharing no secrets with the stored set P) leaves the store
holding P followed by Q, reports success with the imported amount, and
increases the stored balance by the sum of Q; if the mint reports the
proofs already spent, it returns failure and leaves the state
unchanged. -/
theorem C9_importToken_append (P Q : List CashuProof) (s : LocalState)
    (hP : s.proofs = some P) (hQ : Q ≠ [])
    (hsec : ∀ p ∈ P, ∀ q ∈ Q, p.secret ≠ q.secret) :
    (importToken (ReceiveResult.ok Q) s).2.proofs = some (P ++ Q) ∧
    (importToken (ReceiveResult.ok Q) s).1.success = true ∧
    getBalanceFromStoredProofs (importToken (ReceiveResult.ok Q) s).2 =
      getBalanceFromStoredProofs s + sumProofs Q ∧
    (∀ msg : String, strContains msg "already spent" = true →
      importToken (ReceiveResult.err msg) s =
        (⟨false, none, some "This token has already been spent"⟩, s)) := by
  refine ⟨?_, ?_, ?_, ?_⟩
  · simp [importToken, hQ, hP]
  · simp [importToken, hQ]
  · simp [importToken, hQ, hP, getBalanceFromStoredProofs, sumProofs_append]
  · intro msg hmsg
    simp [importToken, hmsg]

/-- C9 (witness): the theorem applied at concrete disjoint proof
sets, together with a concrete already-spent failure. -/
theorem C9_importToken_append_witness :
    (importToken (ReceiveResult.ok [⟨3, "sb", "cb", "ib"⟩])
        { proofs := some [⟨7, "sa", "ca", "ia"⟩], currentToken := none }).2.proofs =
      some [⟨7, "sa", "ca", "ia"⟩, ⟨3, "sb", "cb", "ib"⟩] ∧
    getBalanceFromStoredProofs
        (importToken (ReceiveResult.ok [⟨3, "sb", "cb", "ib"⟩])
          { proofs := some [⟨7, "sa", "ca", "ia"⟩], currentToken := none }).2 = 10 ∧
    importToken (ReceiveResult.err "Token was already spent")
        { proofs := some [⟨7, "sa", "ca", "ia"⟩], currentToken := none } =
      (⟨false, none, some "This token has already been spent"⟩,
       { proofs := some [⟨7, "sa", "ca", "ia"⟩], currentToken := none }) := by
  have h := C9_importToken_append [⟨7, "sa", "ca", "ia"⟩] [⟨3, "sb", "cb", "ib"⟩]
    { proofs := some [⟨7, "sa", "ca", "ia"⟩], currentToken := none }
    rfl (by decide) (by decide)
  refine ⟨h.1, ?_, h.2.2.2 "Token was already spent" (by decide)⟩
  have h3 := h.2.2.1
  simpa using h3

/-- C10 (confirmed): whenever the client-level `unwrapCashuToken`
succeeds, the stored sent-gift list afterwards is exactly the previous
list filtered to the events whose id differs from the unwrapped event's
id (preserving order), and the proof store and cached token are
untouched. -/
theorem C10_unwrap_removes_sent_gift (event : NostrEvent) (privateKey : Nat)
    (s : LocalState) (gift : GiftWrap)
    (h : (clientUnwrapCashuToken event privateKey s).1 = UnwrapResult.ok gift) :
    (clientUnwrapCashuToken event privateKey s).2.wrappedTokens =
      some ((getStoredWrappedTokens s).filter fun tok => tok.id ≠ event.id) ∧
    (clientUnwrapCashuToken event privateKey s).2.proofs = s.proofs ∧
    (clientUnwrapCashuToken event privateKey s).2.currentToken = s.currentToken := by
  unfold clientUnwrapCashuToken at h ⊢
  by_cases hv : isValidCashuGiftWrap event = false
  · simp [hv] at h
  · rw [if_neg hv] at h ⊢
    cases hu : unwrapCashuToken event privateKey with
    | none =>
      rw [hu] at h
      simp at h
    | some g => simp [removeWrappedToken]

/-- Concrete event and state for the C10 witness: the client previously
stored the very event it now unwraps. -/
def C10event : NostrEvent := wrapCashuToken "tk" (pubkeyOf 3) 5 100 none

/-- C10 (witness): the theorem applied at a concrete successful unwrap;
the stored copy of the event is removed and nothing else changes. -/
theorem C10_unwrap_removes_sent_gift_witness :
    (clientUnwrapCashuToken C10event 3
        { proofs := none, currentToken := none,
          wrappedTokens := some [C10event] }).2.wrappedTokens = some [] ∧
    (clientUnwrapCashuToken C10event 3
        { proofs := none, currentToken := none,
          wrappedTokens := some [C10event] }).2.proofs = none := by
  have h := C10_unwrap_removes_sent_gift C10event 3
    { proofs := none, currentToken := none, wrappedTokens := some [C10event] }
    ⟨"tk", pubkeyOf 3, none⟩ (by decide)
  exact ⟨h.1.trans (by decide), h.2.1⟩

end Routstr
